import Mathlib

/-!
Shallow embedding of the cat-nap-watch event-detection and capture pipeline
(src/config.py, src/photo_manager.py, src/catnap_watch.py,
src/catnap_watch_pir_usb.py), with theorems settling the spec claims.
-/

namespace CatNapWatch

/-! ### Configuration constants (src/config.py, default values) -/

/-- `PHOTOS_DIR` from src/config.py. -/
def PHOTOS_DIR : String := "photos"

/-- `MOTION_THRESHOLD` from src/config.py (binary threshold in motion detection). -/
def MOTION_THRESHOLD : Nat := 50

/-- `DIFF_THRESHOLD` from src/config.py (changed-pixel count for motion). -/
def DIFF_THRESHOLD : Nat := 5000

/-- `LIGHT_CAT_THRESHOLD` from src/config.py. -/
def LIGHT_CAT_THRESHOLD : Nat := 100

/-- `MAX_STORED_PHOTOS` from src/config.py. -/
def MAX_STORED_PHOTOS : Nat := 50

/-- `MOTION_COOLDOWN_SECONDS` from src/config.py (env default 5.0; times as ℚ). -/
def MOTION_COOLDOWN_SECONDS : ℚ := 5

/-- `BASELINE_DIFF_THRESHOLD` from src/config.py (env default 30000). -/
def BASELINE_DIFF_THRESHOLD : Nat := 30000

/-- `BASELINE_BINARY_THRESHOLD` from src/config.py (env default 30). -/
def BASELINE_BINARY_THRESHOLD : Nat := 30

/-- `BASELINE_BLUR_KERNEL` from src/config.py (env default 5). -/
def BASELINE_BLUR_KERNEL : Nat := 5

/-- `BASELINE_IMAGE_PATH` from src/config.py (env default
`os.path.join(PHOTOS_DIR, "baseline_nocat.jpg")`). -/
def BASELINE_IMAGE_PATH : String := PHOTOS_DIR ++ "/" ++ "baseline_nocat.jpg"

/-- `MOTION_DETECTION_WIDTH` from src/config.py. -/
def MOTION_DETECTION_WIDTH : Nat := 160

/-- `MOTION_DETECTION_HEIGHT` from src/config.py. -/
def MOTION_DETECTION_HEIGHT : Nat := 120

/-- `PHOTO_CAPTURE_WIDTH` from src/config.py. -/
def PHOTO_CAPTURE_WIDTH : Nat := 640

/-- `PHOTO_CAPTURE_HEIGHT` from src/config.py. -/
def PHOTO_CAPTURE_HEIGHT : Nat := 480

/-! ### Retention manager (src/photo_manager.py, `cleanup_old_photos`) -/

/-- A stored evidence file as the retention sweep sees it: its name within
`PHOTOS_DIR` and its modification time (`os.path.getmtime`). -/
structure PhotoFile where
  name : String
  mtime : Int
deriving DecidableEq, Repr

/-- The sort key of `photo_files.sort(key=mtime, reverse=True)`: newest first. -/
def mtimeDesc (a b : PhotoFile) : Prop := b.mtime ≤ a.mtime

instance : DecidableRel mtimeDesc := fun a b =>
  inferInstanceAs (Decidable (b.mtime ≤ a.mtime))

instance : IsTotal PhotoFile mtimeDesc := ⟨fun a b => le_total b.mtime a.mtime⟩

instance : IsTrans PhotoFile mtimeDesc := ⟨fun _ _ _ h1 h2 => le_trans h2 h1⟩

/-- Result of one retention sweep: the return value of `cleanup_old_photos`
together with its file-system effect (which files were kept and deleted). -/
structure CleanupResult where
  deletedCount : Nat
  kept : List PhotoFile
  deleted : List PhotoFile
deriving DecidableEq, Repr

/-- `cleanup_old_photos(max_photos)` from src/photo_manager.py, with
`photo_files` the glob of `PHOTOS_DIR/*.jpg` already listed. Modelled with
`dry_run=False`, the photos directory existing, and every `os.remove`
succeeding (per-file deletion failures are environment faults the sweep
logs and skips). The Python list sort is by modification time, newest
first; `List.insertionSort` with `mtimeDesc` realises that ordering. -/
def cleanup_old_photos (max_photos : Nat) (photo_files : List PhotoFile) :
    CleanupResult :=
  if photo_files.isEmpty then ⟨0, photo_files, []⟩
  else
    let sorted := photo_files.insertionSort mtimeDesc
    if photo_files.length ≤ max_photos then ⟨0, photo_files, []⟩
    else
      let files_to_delete := sorted.drop max_photos
      ⟨files_to_delete.length, sorted.take max_photos, files_to_delete⟩

/-- The filename filter of the sweep: `glob.glob(os.path.join(PHOTOS_DIR, "*.jpg"))`
matches a name in the photos directory iff it ends in `.jpg`. -/
def globJpg (name : String) : Bool := List.isSuffixOf ".jpg".data name.data

/-! ### Grayscale frames and the OpenCV primitives the sources call

A grayscale frame is its row-major pixel matrix, each pixel `0..255`.
The OpenCV calls the repository makes on such frames (`cv2.absdiff`,
`cv2.threshold(..., THRESH_BINARY)`, `cv2.countNonZero`,
`cv2.GaussianBlur(..., 0)`) are embedded below with their documented
semantics; `cv2.absdiff` raises `cv2.error` when the operand shapes differ,
embedded as the `CvError.dimensionMismatch` value of `Except`. -/

/-- A grayscale raster, row-major. -/
abbrev Gray : Type := List (List Nat)

/-- Exceptions raised by the embedded OpenCV primitives. -/
inductive CvError where
  | dimensionMismatch
deriving DecidableEq, Repr

/-- The shape of a frame: the length of each row (equal shapes = equal
height and equal width, also for ragged inputs). -/
def shape (g : Gray) : List Nat := g.map List.length

/-- Height of a frame (`frame.shape[0]`). -/
def height (g : Gray) : Nat := g.length

/-- Width of a frame (`frame.shape[1]`, taken from the first row). -/
def width (g : Gray) : Nat := (g.headD []).length

/-- A well-formed (rectangular) raster: every row has the width of the frame. -/
def Rect (g : Gray) : Prop := ∀ r ∈ g, r.length = width g

instance (g : Gray) : Decidable (Rect g) := by
  unfold Rect; infer_instance

/-- Pixel access with zero padding outside the raster. -/
def px (g : Gray) (i j : Nat) : Nat := (g.getD i []).getD j 0

/-- `cv2.absdiff(a, b)`: elementwise absolute difference; raises when the
shapes differ. -/
def cv2_absdiff (a b : Gray) : Except CvError Gray :=
  if shape a = shape b then
    .ok (List.zipWith (fun ra rb => List.zipWith (fun x y => max x y - min x y) ra rb) a b)
  else .error .dimensionMismatch

/-- `cv2.threshold(diff, t, 255, cv2.THRESH_BINARY)[1]`: pixel becomes 255
iff its value strictly exceeds `t`, else 0. -/
def cv2_threshold (g : Gray) (t : Nat) : Gray :=
  g.map (fun row => row.map (fun v => if t < v then 255 else 0))

/-- `cv2.countNonZero`: the number of nonzero pixels. -/
def cv2_countNonZero (g : Gray) : Nat :=
  (g.map (fun row => (row.filter (fun v => v ≠ 0)).length)).sum

/-- OpenCV `getGaussianKernel(ksize, 0)` for the small apertures it special
cases with fixed binary-fraction tables (ksize ≤ 7, sigma ≤ 0): the integer
numerators and the common denominator. Larger apertures are outside the
model (the configured kernel of the repository is 5). -/
def smallGaussianTab : Nat → Option (List Nat × Nat)
  | 1 => some ([1], 1)
  | 3 => some ([1, 2, 1], 4)
  | 5 => some ([1, 4, 6, 4, 1], 16)
  | 7 => some ([2, 7, 14, 18, 14, 7, 2], 64)
  | _ => none

/-- OpenCV default border `BORDER_REFLECT_101`: index `i` relative to a row
of length `n`, reflected about the edge pixels. -/
def reflect101 (n : Nat) (i : Int) : Nat :=
  if i < 0 then (-i).toNat
  else if (n : Int) ≤ i then 2 * n - 2 - i.toNat
  else i.toNat

/-- One output pixel of the separable Gaussian convolution: the kernel
tap weights are `tab[u] * tab[v]` out of `denom^2`, the result rounded to
the nearest integer. `r` is the kernel radius. -/
def convolveAt (tab : List Nat) (denom r : Nat) (g : Gray) (h w i j : Nat) : Nat :=
  let s := (List.range tab.length).foldl (fun acc u =>
    (List.range tab.length).foldl (fun acc2 v =>
      acc2 + tab.getD u 0 * tab.getD v 0 *
        px g (reflect101 h ((i : Int) + u - r)) (reflect101 w ((j : Int) + v - r))) acc) 0
  (s + denom * denom / 2) / (denom * denom)

/-- `cv2.GaussianBlur(g, (ksize, ksize), 0)` for the modelled small apertures;
apertures without a fixed table are left unmodelled (identity). -/
def cv2_GaussianBlur (ksize : Nat) (g : Gray) : Gray :=
  match smallGaussianTab ksize with
  | none => g
  | some (tab, denom) =>
    (List.range (height g)).map (fun i =>
      (List.range (width g)).map (fun j =>
        convolveAt tab denom (ksize / 2) g (height g) (width g) i j))

/-! ### Frame differencers -/

/-- `_compare_to_baseline` (src/catnap_watch_pir_usb.py lines 164-174), the
part after the baseline is in hand: optionally Gaussian-blur both frames
(when the configured kernel is nonzero and odd), take `cv2.absdiff`,
binarize at the binary threshold, and count the changed pixels. The input
frame is the grayscale conversion (`cv2.cvtColor`) the source performs on
its BGR argument; `blurKernel` and `binaryThreshold` are the configuration
values `BASELINE_BLUR_KERNEL` and `BASELINE_BINARY_THRESHOLD` (environment
configurable, defaults 5 and 30). `cv2.absdiff` on mismatched shapes raises,
and nothing in `_compare_to_baseline` catches it, so the error propagates. -/
def compare_to_baseline (blurKernel binaryThreshold : Nat)
    (baseline_gray gray : Gray) : Except CvError Nat :=
  match cv2_absdiff
      (if blurKernel ≠ 0 ∧ blurKernel % 2 = 1 then
        cv2_GaussianBlur blurKernel baseline_gray else baseline_gray)
      (if blurKernel ≠ 0 ∧ blurKernel % 2 = 1 then
        cv2_GaussianBlur blurKernel gray else gray) with
  | .error e => .error e
  | .ok diff => .ok (cv2_countNonZero (cv2_threshold diff binaryThreshold))

/-- The try-block of `is_interesting_frame` (src/catnap_watch.py lines
104-118): absolute difference of the stored previous grayscale frame and
the current one, binarized at `MOTION_THRESHOLD`, changed pixels counted
and compared against the threshold argument. -/
def is_interesting_frame_body (last_frame_gray : Gray) (frame_gray : Gray)
    (threshold : Nat) : Except CvError Bool :=
  match cv2_absdiff last_frame_gray frame_gray with
  | .error e => .error e
  | .ok diff =>
    .ok (cv2_countNonZero (cv2_threshold diff MOTION_THRESHOLD) > threshold)

/-- `is_interesting_frame` (src/catnap_watch.py lines 98-122) as a caller
observes it: `None` previous frame gives `False`; any exception in the body
is caught by the `except` clause which logs and returns `False`. The
`Except` result records whether the call raises — it never does, hence is
always `.ok`. -/
def is_interesting_frame (last_frame_gray : Option Gray) (frame_gray : Gray)
    (threshold : Nat) : Except CvError Bool :=
  match last_frame_gray with
  | none => .ok false
  | some last =>
    match is_interesting_frame_body last frame_gray threshold with
    | .error _ => .ok false
    | .ok b => .ok b

/-! ### Event classifier color class (src/catnap_watch.py `identify_cat_color`,
src/catnap_watch_pir_usb.py `_cat_color`) -/

/-- A frame as handed to the color classifier: either a raster that
`cv2.cvtColor` / `.mean()` process normally, or a value (e.g. `None`, an
empty or malformed array) on which the try-block raises internally. -/
inductive CvFrame where
  | valid (g : Gray)
  | invalid
deriving DecidableEq

/-- `gray.mean()`: arithmetic mean of all pixels as an exact rational. -/
def meanBrightness (g : Gray) : ℚ :=
  ((g.map List.sum).sum : ℚ) / ((g.map List.length).sum : ℚ)

/-- `identify_cat_color` (src/catnap_watch.py lines 204-219): mean
brightness above `LIGHT_CAT_THRESHOLD` gives "light", otherwise "dark";
any internal exception is caught and the fallback string is returned. -/
def identify_cat_color (frame : CvFrame) : String :=
  match frame with
  | .valid g =>
    if meanBrightness g > (LIGHT_CAT_THRESHOLD : ℚ) then "light" else "dark"
  | .invalid => "mysterious"

/-- `_cat_color` (src/catnap_watch_pir_usb.py lines 197-202): identical
logic and identical fallback. -/
def cat_color (frame : CvFrame) : String :=
  match frame with
  | .valid g =>
    if meanBrightness g > (LIGHT_CAT_THRESHOLD : ℚ) then "light" else "dark"
  | .invalid => "mysterious"

/-! ### Evidence sink (src/catnap_watch.py `save_cat_photo`,
src/catnap_watch_pir_usb.py `_save_photo`) -/

/-- The target path both save routines derive from the second-resolution
timestamp: `os.path.join(PHOTOS_DIR, f"cat_{timestamp}.jpg")`. -/
def save_cat_photo_path (timestamp : String) : String :=
  PHOTOS_DIR ++ "/" ++ "cat_" ++ timestamp ++ ".jpg"

/-- `save_cat_photo` (src/catnap_watch.py lines 221-238): derives the path
from the timestamp and calls `cv2.imwrite(filepath, frame)`, which creates
or silently overwrites the file at that path. The directory is a map from
path to stored frame content (here an abstract `Nat` identifier);
`imwriteOk` is whether the write succeeds. No existence check and no
disambiguating suffix appear in the source. -/
def save_cat_photo (timestamp : String) (frame : Nat) (imwriteOk : Bool)
    (fs : String → Option Nat) : Option String × (String → Option Nat) :=
  let filepath := save_cat_photo_path timestamp
  if imwriteOk then
    (some filepath, fun q => if q = filepath then some frame else fs q)
  else (none, fs)

/-! ### Two-stage camera (src/catnap_watch.py `set_camera_resolution`,
`capture_high_res_photo`) -/

/-- The current camera resolution, the state `set_camera_resolution`
mutates. Detection mode in the spec is `(MOTION_DETECTION_WIDTH,
MOTION_DETECTION_HEIGHT)`, Capture mode is `(PHOTO_CAPTURE_WIDTH,
PHOTO_CAPTURE_HEIGHT)`. -/
structure Cam where
  width : Nat
  height : Nat
deriving DecidableEq, Repr

/-- `set_camera_resolution(width, height)` (src/catnap_watch.py lines
37-43): sets both dimensions. The camera interface of the spec gives
`setResolution` no failure outcome, so it is total here. -/
def set_camera_resolution (_c : Cam) (w h : Nat) : Cam := ⟨w, h⟩

/-- The camera is in Detection mode in the sense of the spec. -/
def detectionMode (c : Cam) : Prop :=
  c.width = MOTION_DETECTION_WIDTH ∧ c.height = MOTION_DETECTION_HEIGHT

/-- One `self.camera.read()` outcome inside `capture_high_res_photo`:
a frame (`ret=True`), a failed read (`ret=False`), or a raised exception. -/
inductive ReadOutcome where
  | ok
  | fail
  | exn
deriving DecidableEq, Repr

/-- The three-iteration read loop of `capture_high_res_photo` (lines
140-144): tracks whether any read returned a frame; `none` means an
exception escaped the loop. -/
def readLoopHR : List ReadOutcome → Bool → Option Bool
  | [], got => some got
  | .ok :: rest, _ => readLoopHR rest true
  | .fail :: rest, got => readLoopHR rest got
  | .exn :: _, _ => none

/-- `capture_high_res_photo` (src/catnap_watch.py lines 124-165): switch to
Capture resolution, attempt three reads, switch back to Detection
resolution, and return whether a high-res frame was obtained. The `except`
clause restores Detection resolution before returning `None` when an
exception escapes mid-capture. -/
def capture_high_res_photo (reads : List ReadOutcome) (c : Cam) : Cam × Bool :=
  let c1 := set_camera_resolution c PHOTO_CAPTURE_WIDTH PHOTO_CAPTURE_HEIGHT
  match readLoopHR (reads.take 3) false with
  | none =>
    (set_camera_resolution c1 MOTION_DETECTION_WIDTH MOTION_DETECTION_HEIGHT, false)
  | some got =>
    (set_camera_resolution c1 MOTION_DETECTION_WIDTH MOTION_DETECTION_HEIGHT, got)

/-! ### Baseline store and PIR motion handler (src/catnap_watch_pir_usb.py) -/

/-- The environment `_ensure_baseline` (lines 128-157) interacts with:
whether `BASELINE_IMAGE_PATH` exists on disk, what `cv2.imread` yields
there (already grayscale-converted; `none` = unreadable), whether the
camera is open or `_open_camera` succeeds, what the final `cap.read()`
yields after the warm-up discards, and whether `cv2.imwrite` of the new
baseline succeeds. -/
structure BaselineEnv where
  fileExists : Bool
  imreadResult : Option Gray
  cameraAvailable : Bool
  captureRead : Option Gray
  imwriteOk : Bool
deriving DecidableEq

/-- `_ensure_baseline` (src/catnap_watch_pir_usb.py lines 128-157): load
the baseline from disk if present and readable; otherwise capture a fresh
frame, persist it, and use it. `some g` models `return True` with
`self.baseline_gray = g`; `none` models `return False` (load failed and
either the camera could not open, the read failed, or the imwrite failed). -/
def ensure_baseline (env : BaselineEnv) : Option Gray :=
  match env.fileExists, env.imreadResult with
  | true, some img => some img
  | _, _ =>
    if ¬ env.cameraAvailable then none
    else
      match env.captureRead with
      | none => none
      | some frame => if ¬ env.imwriteOk then none else some frame

/-- The watcher state the PIR handler reads and writes
(src/catnap_watch_pir_usb.py `__init__`): the last accepted trigger time
and the cached baseline. -/
structure WatcherSt where
  last_motion_time : ℚ
  baseline_gray : Option Gray
deriving DecidableEq

/-- `_compare_to_baseline` as the method including its first two lines
(159-163): when `self.baseline_gray` is `None` it calls `_ensure_baseline`,
and **returns 0** when that fails; otherwise it compares against the (now
cached) baseline. Returns the possibly-updated state with the changed-pixel
count. -/
def compareWithEnsure (blurKernel binaryThreshold : Nat) (env : BaselineEnv)
    (st : WatcherSt) (gray : Gray) : Except CvError (WatcherSt × Nat) :=
  match st.baseline_gray with
  | none =>
    match ensure_baseline env with
    | none => .ok (st, 0)
    | some b =>
      (compare_to_baseline blurKernel binaryThreshold b gray).map
        (fun n => ({ st with baseline_gray := some b }, n))
  | some b =>
    (compare_to_baseline blurKernel binaryThreshold b gray).map (fun n => (st, n))

/-- What one invocation of `_on_motion` consumes from its environment:
`time.time()` at entry, the `_capture_frame()` result (`none` = capture
failed, otherwise the grayscale conversion of the frame), the `_ensure_baseline`
environment, and whether `cv2.imwrite` of the evidence photo succeeds. -/
structure MotionInputs where
  now : ℚ
  captureResult : Option Gray
  ensureEnv : BaselineEnv
  imwriteOk : Bool

/-- The externally visible effects of one `_on_motion` invocation: whether
an evidence photo was stored and whether the notifier
(`diaries.create_and_send_update`) was invoked. A Recording transition in
the sense of the spec performs both. -/
structure Effects where
  photoSaved : Bool
  notified : Bool
deriving DecidableEq, Repr

/-- `_on_motion` (src/catnap_watch_pir_usb.py lines 222-242): return
immediately when the trigger arrives within `cooldown` of the last accepted
one; otherwise update `last_motion_time` **before any camera work**, then
capture (abandoning the cycle on failure), compare to the baseline, and
save + notify when the changed count exceeds `diffThreshold` (config
`BASELINE_DIFF_THRESHOLD`) or `saveAll` (config `SAVE_ALL_MOTION_SHOTS`)
is set. The notifier is invoked with the save path even when the save
failed (path `None`). -/
def on_motion (cooldown : ℚ) (diffThreshold : Nat) (saveAll : Bool)
    (blurKernel binaryThreshold : Nat) (st : WatcherSt) (inp : MotionInputs) :
    Except CvError (WatcherSt × Effects) :=
  if inp.now - st.last_motion_time < cooldown then .ok (st, ⟨false, false⟩)
  else
    let st1 : WatcherSt := { st with last_motion_time := inp.now }
    match inp.captureResult with
    | none => .ok (st1, ⟨false, false⟩)
    | some frame =>
      match compareWithEnsure blurKernel binaryThreshold inp.ensureEnv st1 frame with
      | .error e => .error e
      | .ok (st2, changed) =>
        if changed > diffThreshold || saveAll then
          .ok (st2, ⟨inp.imwriteOk, true⟩)
        else .ok (st2, ⟨false, false⟩)


/-! ### Helper lemmas -/

/-- When the file count exceeds the cap, the sweep keeps the first
`max_photos` of the newest-first ordering and deletes the rest. -/
lemma cleanup_eq_of_lt (k : Nat) (files : List PhotoFile) (h : k < files.length) :
    cleanup_old_photos k files =
      ⟨files.length - k, (files.insertionSort mtimeDesc).take k,
        (files.insertionSort mtimeDesc).drop k⟩ := by
  have hne : files.isEmpty = false := by
    cases files with
    | nil => simp at h
    | cons a l => rfl
  have hgt : ¬ files.length ≤ k := not_le.mpr h
  unfold cleanup_old_photos
  rw [hne]
  simp only [Bool.false_eq_true, if_false, hgt, if_false]
  have hlen : ((files.insertionSort mtimeDesc).drop k).length = files.length - k := by
    rw [List.length_drop, List.length_insertionSort]
  rw [hlen]

/-- When the file count is within the cap, the sweep does nothing. -/
lemma cleanup_eq_of_le (k : Nat) (files : List PhotoFile) (h : files.length ≤ k) :
    cleanup_old_photos k files = ⟨0, files, []⟩ := by
  unfold cleanup_old_photos
  by_cases hemp : files.isEmpty
  · rw [hemp]; simp
  · rw [Bool.of_not_eq_true hemp]
    simp only [Bool.false_eq_true, if_false, h, if_true]

/-- A file with at least `k` strictly newer files sorts into the dropped
suffix of the newest-first ordering. -/
lemma mem_drop_sort_of_newer (k : Nat) (files : List PhotoFile) (b : PhotoFile)
    (hb : b ∈ files)
    (hnewer : k ≤ files.countP (fun f => decide (b.mtime < f.mtime))) :
    b ∈ (files.insertionSort mtimeDesc).drop k := by
  set p : PhotoFile → Bool := fun f => decide (b.mtime < f.mtime) with hp
  set s := files.insertionSort mtimeDesc with hs
  have hbs : b ∈ s := (List.mem_insertionSort mtimeDesc).mpr hb
  obtain ⟨l1, l2, hsplit⟩ := List.append_of_mem hbs
  have hsorted : List.Pairwise mtimeDesc s := List.sorted_insertionSort mtimeDesc files
  rw [hsplit] at hsorted
  have hl2 : ∀ x ∈ l2, x.mtime ≤ b.mtime := by
    have := (List.pairwise_append.mp hsorted).2.1
    exact fun x hx => (List.pairwise_cons.mp this).1 x hx
  have hcount : s.countP p = files.countP p :=
    (List.perm_insertionSort mtimeDesc files).countP_eq p
  have hpb : p b = false := by simp [hp]
  have hl2count : l2.countP p = 0 := by
    rw [List.countP_eq_zero]
    intro x hx
    simp only [hp, decide_eq_true_eq]
    exact not_lt.mpr (hl2 x hx)
  have hcountsplit : s.countP p = l1.countP p := by
    rw [hsplit, List.countP_append, List.countP_cons, hpb, hl2count]
    simp
  have hk1 : k ≤ l1.length := by
    calc k ≤ files.countP p := hnewer
    _ = s.countP p := hcount.symm
    _ = l1.countP p := hcountsplit
    _ ≤ l1.length := List.countP_le_length p
  rw [hsplit, List.drop_append_of_le_length hk1]
  exact List.mem_append_right _ (List.mem_cons_self b l2)

/-- A file with at least `k` strictly newer companions forces the listing
past the cap `k`. -/
lemma length_gt_of_newer (k : Nat) (files : List PhotoFile) (b : PhotoFile)
    (hb : b ∈ files)
    (hnewer : k ≤ files.countP (fun f => decide (b.mtime < f.mtime))) :
    k < files.length := by
  set p : PhotoFile → Bool := fun f => decide (b.mtime < f.mtime) with hp
  have hsplit := List.length_eq_countP_add_countP p files
  have hpos : 0 < files.countP (fun a => decide ¬ (p a = true)) := by
    rw [List.countP_pos_iff]
    exact ⟨b, hb, by simp [hp]⟩
  omega

/-! ### Claim theorems -/

/-- C1: for every directory of N evidence files and cap k, the sweep with
k < N deletes exactly N - k files and keeps exactly k; the kept and deleted
files together are the original listing, and every kept file is at least as
new as every deleted file (so the k newest remain); with N ≤ k it deletes
nothing. -/
theorem c1_retention_sweep (k : Nat) (files : List PhotoFile) :
    (files.length ≤ k → (cleanup_old_photos k files).deletedCount = 0 ∧
      (cleanup_old_photos k files).deleted = []) ∧
    (k < files.length →
      (cleanup_old_photos k files).deletedCount = files.length - k ∧
      (cleanup_old_photos k files).kept.length = k ∧
      ((cleanup_old_photos k files).kept ++ (cleanup_old_photos k files).deleted).Perm files ∧
      ∀ a ∈ (cleanup_old_photos k files).kept, ∀ b ∈ (cleanup_old_photos k files).deleted,
        b.mtime ≤ a.mtime) := by
  constructor
  · intro h
    rw [cleanup_eq_of_le k files h]
    exact ⟨rfl, rfl⟩
  · intro h
    rw [cleanup_eq_of_lt k files h]
    refine ⟨rfl, ?_, ?_, ?_⟩
    · simp only [List.length_take, List.length_insertionSort]
      omega
    · rw [List.take_append_drop]
      exact List.perm_insertionSort mtimeDesc files
    · have hsorted : List.Pairwise mtimeDesc (files.insertionSort mtimeDesc) :=
        List.sorted_insertionSort mtimeDesc files
      rw [← List.take_append_drop k (files.insertionSort mtimeDesc)] at hsorted
      exact fun a ha b hbmem => (List.pairwise_append.mp hsorted).2.2 a ha b hbmem

/-- Witness for C1 at a concrete directory of three files with cap two. -/
theorem c1_retention_sweep_witness :
    2 < ([⟨"a", 1⟩, ⟨"b", 3⟩, ⟨"c", 2⟩] : List PhotoFile).length ∧
    ((cleanup_old_photos 2 [⟨"a", 1⟩, ⟨"b", 3⟩, ⟨"c", 2⟩]).deletedCount =
        ([⟨"a", 1⟩, ⟨"b", 3⟩, ⟨"c", 2⟩] : List PhotoFile).length - 2 ∧
      (cleanup_old_photos 2 [⟨"a", 1⟩, ⟨"b", 3⟩, ⟨"c", 2⟩]).kept.length = 2 ∧
      ((cleanup_old_photos 2 [⟨"a", 1⟩, ⟨"b", 3⟩, ⟨"c", 2⟩]).kept ++
          (cleanup_old_photos 2 [⟨"a", 1⟩, ⟨"b", 3⟩, ⟨"c", 2⟩]).deleted).Perm
        [⟨"a", 1⟩, ⟨"b", 3⟩, ⟨"c", 2⟩] ∧
      ∀ a ∈ (cleanup_old_photos 2 [⟨"a", 1⟩, ⟨"b", 3⟩, ⟨"c", 2⟩]).kept,
        ∀ b ∈ (cleanup_old_photos 2 [⟨"a", 1⟩, ⟨"b", 3⟩, ⟨"c", 2⟩]).deleted,
          b.mtime ≤ a.mtime) :=
  ⟨by decide, (c1_retention_sweep 2 [⟨"a", 1⟩, ⟨"b", 3⟩, ⟨"c", 2⟩]).2 (by decide)⟩

/-- C2: on every exit path of the high-resolution capture step — normal
return, all reads failing, or an exception mid-capture — the camera is back
at Detection resolution when control returns, so a loop that starts a cycle
in Detection mode ends it in Detection mode. -/
theorem c2_resolution_restored (reads : List ReadOutcome) (c : Cam) :
    detectionMode (capture_high_res_photo reads c).1 := by
  unfold capture_high_res_photo detectionMode set_camera_resolution
  cases readLoopHR (reads.take 3) false <;> exact ⟨rfl, rfl⟩

/-- C3: a trigger arriving strictly within the cooldown window of the last
accepted trigger is dropped by `_on_motion` before any camera work: the
state is unchanged and no photo is saved, no notification sent. -/
theorem c3_cooldown_suppresses (cooldown : ℚ) (diffThreshold : Nat)
    (saveAll : Bool) (blurKernel binaryThreshold : Nat) (st : WatcherSt)
    (inp : MotionInputs) (h : inp.now - st.last_motion_time < cooldown) :
    on_motion cooldown diffThreshold saveAll blurKernel binaryThreshold st inp =
      .ok (st, ⟨false, false⟩) := by
  unfold on_motion
  rw [if_pos h]

/-- Witness for C3: a trigger two seconds after the previous accepted one,
inside the default five-second cooldown. -/
theorem c3_cooldown_suppresses_witness :
    ((3 : ℚ) - 1 < MOTION_COOLDOWN_SECONDS) ∧
    on_motion MOTION_COOLDOWN_SECONDS BASELINE_DIFF_THRESHOLD false
        BASELINE_BLUR_KERNEL BASELINE_BINARY_THRESHOLD ⟨1, none⟩
        ⟨3, none, ⟨false, none, false, none, false⟩, true⟩ =
      .ok (⟨1, none⟩, ⟨false, false⟩) :=
  ⟨by norm_num [MOTION_COOLDOWN_SECONDS],
    c3_cooldown_suppresses MOTION_COOLDOWN_SECONDS BASELINE_DIFF_THRESHOLD
      false BASELINE_BLUR_KERNEL BASELINE_BINARY_THRESHOLD ⟨1, none⟩
      ⟨3, none, ⟨false, none, false, none, false⟩, true⟩
      (by norm_num [MOTION_COOLDOWN_SECONDS])⟩

/-- C10: `_on_motion` stamps the cooldown time before any camera work, so a
trigger that passes the debounce check but whose capture fails still
consumes the cooldown: the handler returns with `last_motion_time` updated
and no photo, and every trigger arriving strictly within `cooldown` of it is
then suppressed. -/
theorem c10_failed_capture_still_cools (cooldown : ℚ) (diffThreshold : Nat)
    (saveAll : Bool) (blurKernel binaryThreshold : Nat) (st : WatcherSt)
    (inp : MotionInputs) (hpass : ¬ inp.now - st.last_motion_time < cooldown)
    (hfail : inp.captureResult = none) :
    on_motion cooldown diffThreshold saveAll blurKernel binaryThreshold st inp =
      .ok ({ st with last_motion_time := inp.now }, ⟨false, false⟩) ∧
    ∀ inp2 : MotionInputs, inp2.now - inp.now < cooldown →
      on_motion cooldown diffThreshold saveAll blurKernel binaryThreshold
          { st with last_motion_time := inp.now } inp2 =
        .ok ({ st with last_motion_time := inp.now }, ⟨false, false⟩) := by
  constructor
  · unfold on_motion
    rw [if_neg hpass, hfail]
  · intro inp2 h2
    unfold on_motion
    rw [if_pos h2]

/-- Witness for C10: an accepted trigger at time 10 after a last trigger at
time 0, with the capture failing. -/
theorem c10_failed_capture_still_cools_witness :
    (¬ (10 : ℚ) - 0 < MOTION_COOLDOWN_SECONDS) ∧
    (on_motion MOTION_COOLDOWN_SECONDS BASELINE_DIFF_THRESHOLD false
        BASELINE_BLUR_KERNEL BASELINE_BINARY_THRESHOLD ⟨0, none⟩
        ⟨10, none, ⟨false, none, false, none, false⟩, true⟩ =
      .ok (⟨10, none⟩, ⟨false, false⟩) ∧
    ∀ inp2 : MotionInputs, inp2.now - 10 < MOTION_COOLDOWN_SECONDS →
      on_motion MOTION_COOLDOWN_SECONDS BASELINE_DIFF_THRESHOLD false
          BASELINE_BLUR_KERNEL BASELINE_BINARY_THRESHOLD ⟨10, none⟩ inp2 =
        .ok (⟨10, none⟩, ⟨false, false⟩)) :=
  ⟨by norm_num [MOTION_COOLDOWN_SECONDS],
    c10_failed_capture_still_cools MOTION_COOLDOWN_SECONDS
      BASELINE_DIFF_THRESHOLD false BASELINE_BLUR_KERNEL BASELINE_BINARY_THRESHOLD
      ⟨0, none⟩ ⟨10, none, ⟨false, none, false, none, false⟩, true⟩
      (by norm_num [MOTION_COOLDOWN_SECONDS]) rfl⟩

/-- C4 counterexample: with no cached baseline, the baseline file absent and
the camera unavailable (so neither load nor capture can succeed, and
`_ensure_baseline` fails), `_compare_to_baseline` does not propagate the
failure: it silently reports the changed-pixel count 0. -/
theorem c4_counterexample :
    (⟨0, none⟩ : WatcherSt).baseline_gray = none ∧
    ensure_baseline ⟨false, none, false, none, false⟩ = none ∧
    compareWithEnsure BASELINE_BLUR_KERNEL BASELINE_BINARY_THRESHOLD
        ⟨false, none, false, none, false⟩ ⟨0, none⟩ [[0]] =
      .ok (⟨0, none⟩, 0) :=
  ⟨rfl, rfl, rfl⟩

/-- C4 amended: when no baseline is cached and `_ensure_baseline` fails
(neither load nor capture succeeds), `_compare_to_baseline` returns the
changed-pixel count 0 instead of propagating; the state is untouched. -/
theorem c4_compare_zero_on_missing_baseline (blurKernel binaryThreshold : Nat)
    (env : BaselineEnv) (st : WatcherSt) (frame : Gray)
    (hb : st.baseline_gray = none) (he : ensure_baseline env = none) :
    compareWithEnsure blurKernel binaryThreshold env st frame = .ok (st, 0) := by
  unfold compareWithEnsure
  rw [hb, he]

/-- Witness for amended C4 at the all-failing environment. -/
theorem c4_compare_zero_on_missing_baseline_witness :
    (⟨0, none⟩ : WatcherSt).baseline_gray = none ∧
    ensure_baseline ⟨true, none, true, none, false⟩ = none ∧
    compareWithEnsure 0 30 ⟨true, none, true, none, false⟩ ⟨0, none⟩ [[5]] =
      .ok (⟨0, none⟩, 0) :=
  ⟨rfl, rfl, c4_compare_zero_on_missing_baseline 0 30
    ⟨true, none, true, none, false⟩ ⟨0, none⟩ [[5]] rfl rfl⟩

/-- The shape of a rectangular frame is its height many copies of its width. -/
lemma shape_eq_replicate_of_rect (g : Gray) (hg : Rect g) :
    shape g = List.replicate (height g) (width g) := by
  unfold shape height
  refine List.eq_replicate_iff.mpr ⟨List.length_map g List.length, ?_⟩
  intro x hx
  obtain ⟨r, hr, hrx⟩ := List.mem_map.mp hx
  rw [← hrx]
  exact hg r hr

/-- Gaussian blur preserves the shape of a rectangular frame. -/
lemma shape_gaussianBlur (ksize : Nat) (g : Gray) (hg : Rect g) :
    shape (cv2_GaussianBlur ksize g) = shape g := by
  unfold cv2_GaussianBlur
  cases htab : smallGaussianTab ksize with
  | none => rfl
  | some td =>
    rw [shape_eq_replicate_of_rect g hg]
    unfold shape
    rw [List.map_map]
    have : (List.length ∘ fun i =>
        (List.range (width g)).map (convolveAt td.1 td.2 (ksize / 2) g (height g) (width g) i)) =
        fun _ => width g := by
      funext i
      simp [List.length_map, List.length_range]
    rw [this]
    refine List.eq_replicate_iff.mpr ⟨by simp, ?_⟩
    intro x hx
    obtain ⟨i, _, hix⟩ := List.mem_map.mp hx
    exact hix.symm

/-- C5 counterexample: two 9x9 frames that differ in exactly one pixel, by
31 which strictly exceeds the default binary threshold 30, yet with the
default (admissible, odd) blur kernel 5 the differencer reports 0 changed
pixels: the blur smears the single-pixel difference below the threshold. -/
theorem c5_counterexample :
    (cv2_absdiff (List.replicate 9 (List.replicate 9 0))
        ((List.range 9).map (fun i => (List.range 9).map
          (fun j => if i = 4 ∧ j = 4 then 31 else 0))) =
      .ok ((List.range 9).map (fun i => (List.range 9).map
          (fun j => if i = 4 ∧ j = 4 then 31 else 0))) ∧
      cv2_countNonZero ((List.range 9).map (fun i => (List.range 9).map
          (fun j => if i = 4 ∧ j = 4 then 31 else 0))) = 1 ∧
      cv2_countNonZero (cv2_threshold ((List.range 9).map (fun i => (List.range 9).map
          (fun j => if i = 4 ∧ j = 4 then 31 else 0))) BASELINE_BINARY_THRESHOLD) = 1) ∧
    compare_to_baseline BASELINE_BLUR_KERNEL BASELINE_BINARY_THRESHOLD
        (List.replicate 9 (List.replicate 9 0))
        ((List.range 9).map (fun i => (List.range 9).map
          (fun j => if i = 4 ∧ j = 4 then 31 else 0))) = .ok 0 :=
  ⟨⟨rfl, rfl, rfl⟩, rfl⟩

/-- C5 amended: with blur disabled (radius 0), the differencer reports at
least one changed pixel on every pair of frames differing in exactly one
pixel by strictly more than the binary threshold. With a nonzero blur
radius this is not guaranteed. -/
theorem c5_one_pixel_diff_no_blur (binaryThreshold : Nat) (a b d : Gray)
    (habs : cv2_absdiff a b = .ok d)
    (h1 : cv2_countNonZero d = 1)
    (hthr : cv2_countNonZero (cv2_threshold d binaryThreshold) = 1) :
    ∃ n, compare_to_baseline 0 binaryThreshold a b = .ok n ∧ 1 ≤ n := by
  refine ⟨1, ?_, le_refl 1⟩
  have hcond : ¬ ((0 : Nat) ≠ 0 ∧ (0 : Nat) % 2 = 1) := by simp
  simp only [compare_to_baseline, if_neg hcond, habs, hthr]

/-- Witness for amended C5: 1x1 frames 0 and 31 at the default binary
threshold 30. -/
theorem c5_one_pixel_diff_no_blur_witness :
    (cv2_absdiff [[0]] [[31]] = .ok [[31]] ∧
      cv2_countNonZero [[31]] = 1 ∧
      cv2_countNonZero (cv2_threshold [[31]] BASELINE_BINARY_THRESHOLD) = 1) ∧
    ∃ n, compare_to_baseline 0 BASELINE_BINARY_THRESHOLD [[0]] [[31]] = .ok n ∧ 1 ≤ n :=
  ⟨⟨rfl, rfl, rfl⟩,
    c5_one_pixel_diff_no_blur BASELINE_BINARY_THRESHOLD [[0]] [[31]] [[31]]
      rfl rfl rfl⟩

/-- C6 counterexample: on frames of different shapes, `is_interesting_frame`
does not fail loudly — the `except` clause swallows the `cv2.absdiff` error
and the call returns the no-motion verdict `False`. -/
theorem c6_counterexample :
    shape [[0]] ≠ shape ([[0, 0]] : Gray) ∧
    is_interesting_frame (some [[0]]) [[0, 0]] DIFF_THRESHOLD = .ok false :=
  ⟨by decide, rfl⟩

/-- C6 amended: on rectangular frames of different shapes,
`_compare_to_baseline` fails loudly with the dimension-mismatch error (never
silently resizing or returning a count), while `is_interesting_frame`
catches the same error and returns `False` instead of propagating it. -/
theorem c6_dimension_mismatch (blurKernel binaryThreshold threshold : Nat)
    (a b : Gray) (ha : Rect a) (hb : Rect b) (hne : shape a ≠ shape b) :
    compare_to_baseline blurKernel binaryThreshold a b = .error .dimensionMismatch ∧
    is_interesting_frame (some a) b threshold = .ok false := by
  constructor
  · by_cases hcond : blurKernel ≠ 0 ∧ blurKernel % 2 = 1
    · simp only [compare_to_baseline, if_pos hcond, cv2_absdiff,
        shape_gaussianBlur blurKernel a ha, shape_gaussianBlur blurKernel b hb,
        if_neg hne]
    · simp only [compare_to_baseline, if_neg hcond, cv2_absdiff, if_neg hne]
  · simp only [is_interesting_frame, is_interesting_frame_body, cv2_absdiff,
      if_neg hne]

/-- Witness for amended C6: a 1x1 frame against a 1x2 frame at the default
configuration. -/
theorem c6_dimension_mismatch_witness :
    (Rect [[0]] ∧ Rect ([[0, 0]] : Gray) ∧ shape [[0]] ≠ shape ([[0, 0]] : Gray)) ∧
    compare_to_baseline BASELINE_BLUR_KERNEL BASELINE_BINARY_THRESHOLD [[0]] [[0, 0]] =
        .error .dimensionMismatch ∧
    is_interesting_frame (some [[0]]) [[0, 0]] DIFF_THRESHOLD = .ok false :=
  ⟨⟨by decide, by decide, by decide⟩,
    c6_dimension_mismatch BASELINE_BLUR_KERNEL BASELINE_BINARY_THRESHOLD
      DIFF_THRESHOLD [[0]] [[0, 0]] (by decide) (by decide) (by decide)⟩


/-- C7 counterexample: on an internally failing frame the classifier
returns the sentinel "mysterious", not "unknown", in both variants. -/
theorem c7_counterexample :
    identify_cat_color .invalid = "mysterious" ∧
    cat_color .invalid = "mysterious" ∧
    ("mysterious" : String) ≠ "unknown" := by
  refine ⟨rfl, rfl, by decide⟩

/-- C7 amended: the classifier never propagates an error — it returns one
of exactly "light", "dark" and the failure sentinel "mysterious" on every
input, only "mysterious" on internal failure, and its two source variants
agree. -/
theorem c7_color_class_sentinel (f : CvFrame) :
    (identify_cat_color f = "light" ∨ identify_cat_color f = "dark" ∨
      identify_cat_color f = "mysterious") ∧
    (f = .invalid → identify_cat_color f = "mysterious") ∧
    cat_color f = identify_cat_color f := by
  cases f with
  | valid g =>
    refine ⟨?_, fun hx => by simp at hx, rfl⟩
    simp only [identify_cat_color]
    by_cases h : meanBrightness g > (LIGHT_CAT_THRESHOLD : ℚ)
    · rw [if_pos h]
      exact Or.inl rfl
    · rw [if_neg h]
      exact Or.inr (Or.inl rfl)
  | invalid =>
    exact ⟨Or.inr (Or.inr rfl), fun _ => rfl, rfl⟩

/-- Witness for amended C7 at the failing input. -/
theorem c7_color_class_sentinel_witness :
    identify_cat_color .invalid = "mysterious" ∧ cat_color .invalid = "mysterious" :=
  ⟨(c7_color_class_sentinel .invalid).2.1 rfl,
    ((c7_color_class_sentinel .invalid).2.2).trans
      ((c7_color_class_sentinel .invalid).2.1 rfl)⟩

/-- C8 counterexample: two saves in the same clock second derive the
identical path; no suffix is appended, and the second write replaces the
content of the first file instead of retaining both. -/
theorem c8_counterexample :
    (save_cat_photo "20250101_120000" 1 true (fun _ => none)).1 =
      some (save_cat_photo_path "20250101_120000") ∧
    (save_cat_photo "20250101_120000" 2 true
        (save_cat_photo "20250101_120000" 1 true (fun _ => none)).2).1 =
      some (save_cat_photo_path "20250101_120000") ∧
    (save_cat_photo "20250101_120000" 1 true (fun _ => none)).2
        (save_cat_photo_path "20250101_120000") = some 1 ∧
    (save_cat_photo "20250101_120000" 2 true
        (save_cat_photo "20250101_120000" 1 true (fun _ => none)).2).2
        (save_cat_photo_path "20250101_120000") = some 2 := by
  refine ⟨rfl, rfl, ?_, ?_⟩ <;> simp [save_cat_photo]

/-- C8 amended: for every timestamp and directory state, two successful
saves within the same second both target the timestamp-derived path and the
second overwrites the first — the collision is not avoided. -/
theorem c8_same_second_overwrite (timestamp : String) (frame1 frame2 : Nat)
    (fs : String → Option Nat) :
    (save_cat_photo timestamp frame1 true fs).1 =
      some (save_cat_photo_path timestamp) ∧
    (save_cat_photo timestamp frame2 true
        (save_cat_photo timestamp frame1 true fs).2).1 =
      some (save_cat_photo_path timestamp) ∧
    (save_cat_photo timestamp frame2 true
        (save_cat_photo timestamp frame1 true fs).2).2
        (save_cat_photo_path timestamp) = some frame2 := by
  refine ⟨rfl, rfl, ?_⟩
  simp [save_cat_photo]

/-- C9: the glob pattern of the sweep matches the filename of the baseline
reference image, the default baseline path lies inside the photos directory, and
whenever at least `k` stored files are strictly newer than the baseline
file (so it is not among the `k` newest), the sweep with cap `k` deletes
the baseline. -/
theorem c9_sweep_deletes_baseline (k : Nat) (files : List PhotoFile)
    (b : PhotoFile) (hb : b ∈ files)
    (hnewer : k ≤ files.countP (fun f => decide (b.mtime < f.mtime))) :
    globJpg "baseline_nocat.jpg" = true ∧
    BASELINE_IMAGE_PATH = PHOTOS_DIR ++ "/" ++ "baseline_nocat.jpg" ∧
    b ∈ (cleanup_old_photos k files).deleted := by
  refine ⟨by decide, rfl, ?_⟩
  have hk : k < files.length := length_gt_of_newer k files b hb hnewer
  rw [cleanup_eq_of_lt k files hk]
  exact mem_drop_sort_of_newer k files b hb hnewer

/-- Witness for C9: the baseline file among three files, two of them newer,
with cap two. -/
theorem c9_sweep_deletes_baseline_witness :
    ((⟨"baseline_nocat.jpg", 0⟩ : PhotoFile) ∈
      ([⟨"baseline_nocat.jpg", 0⟩, ⟨"cat_a.jpg", 5⟩, ⟨"cat_b.jpg", 7⟩] : List PhotoFile) ∧
      2 ≤ ([⟨"baseline_nocat.jpg", 0⟩, ⟨"cat_a.jpg", 5⟩, ⟨"cat_b.jpg", 7⟩] :
        List PhotoFile).countP
          (fun f => decide ((⟨"baseline_nocat.jpg", 0⟩ : PhotoFile).mtime < f.mtime))) ∧
    globJpg "baseline_nocat.jpg" = true ∧
    BASELINE_IMAGE_PATH = PHOTOS_DIR ++ "/" ++ "baseline_nocat.jpg" ∧
    (⟨"baseline_nocat.jpg", 0⟩ : PhotoFile) ∈
      (cleanup_old_photos 2
        [⟨"baseline_nocat.jpg", 0⟩, ⟨"cat_a.jpg", 5⟩, ⟨"cat_b.jpg", 7⟩]).deleted :=
  ⟨⟨by decide, by decide⟩,
    c9_sweep_deletes_baseline 2
      [⟨"baseline_nocat.jpg", 0⟩, ⟨"cat_a.jpg", 5⟩, ⟨"cat_b.jpg", 7⟩]
      ⟨"baseline_nocat.jpg", 0⟩ (by decide) (by decide)⟩

end CatNapWatch
